import Mathlib

/-!
Verification of the recipe API backend (`app/recipe/views.py` and its test
suite) against its natural-language specification.

The repository exposes three user-owned resources (recipes, tags,
ingredients) through Django REST Framework viewsets.  We embed the data
model, the serializers and the request handlers shallowly: the database is a
record of lists, a request's authentication is `Option Nat` (`some uid` for
a valid token of user `uid`, `none` for a missing or invalid token), and
each viewset action becomes a Lean function from the request data and the
database to a response (status code, optional body, updated database).

The viewset overrides (`get_queryset` filtering by the request user and
ordering, `get_serializer_class` dispatching on the action,
`perform_create` forcing the owner) are translated directly from
`src/app/recipe/views.py`.  The generic mixin behaviour (list / retrieve /
create / update / partial update / destroy, token authentication returning
401, `get_object` looking the primary key up inside `get_queryset` and
producing 404 on a miss) is the documented semantics of the framework the
views delegate to.  The model and serializer modules of the repository are
not under `src/`, so they are modelled from the spec where needed; each such
definition says so in its doc comment.
-/

namespace RecipeApp

/-- Modelled from the spec: `core.models.Recipe` (the models module is not
under `src/`).  A recipe row: primary key `id`, owning user `user`, and the
writable fields exercised by the tests (`title`, `time_minutes`, `price`,
`description`, `link`).  Price is kept as its decimal string; the
many-to-many links to tags and ingredients are omitted because no claim
mentions them. -/
structure Recipe where
  id : Nat
  user : Nat
  title : String
  time_minutes : Nat
  price : String
  description : String
  link : String
deriving Repr, DecidableEq

/-- Modelled from the spec: `core.models.Tag`.  A tag row: primary key,
owning user, name. -/
structure Tag where
  id : Nat
  user : Nat
  name : String
deriving Repr, DecidableEq

/-- Modelled from the spec: `core.models.Ingredient`.  An ingredient row:
primary key, owning user, name. -/
structure Ingredient where
  id : Nat
  user : Nat
  name : String
deriving Repr, DecidableEq

/-- The stored state: the three tables. -/
structure DB where
  recipes : List Recipe
  tags : List Tag
  ingredients : List Ingredient
deriving Repr, DecidableEq

/-- Modelled from the spec: the JSON shape produced by
`recipe.serializers.RecipeSerializer` (used for the list action): the
recipe's public fields without the owner and without the detail-only
description. -/
structure RecipeListItem where
  id : Nat
  title : String
  time_minutes : Nat
  price : String
  link : String
deriving Repr, DecidableEq

/-- Modelled from the spec: the JSON shape produced by
`recipe.serializers.RecipeDetailSerializer`: the list shape plus the
description. -/
structure RecipeDetailItem where
  id : Nat
  title : String
  time_minutes : Nat
  price : String
  description : String
  link : String
deriving Repr, DecidableEq

/-- Modelled from the spec: the JSON shape produced by
`recipe.serializers.TagSerializer`: id and name. -/
structure AttrItem where
  id : Nat
  name : String
deriving Repr, DecidableEq

/-- Modelled from the spec: `RecipeSerializer` as a function on rows. -/
def RecipeSerializer (r : Recipe) : RecipeListItem :=
  ⟨r.id, r.title, r.time_minutes, r.price, r.link⟩

/-- Modelled from the spec: `RecipeDetailSerializer` as a function on rows. -/
def RecipeDetailSerializer (r : Recipe) : RecipeDetailItem :=
  ⟨r.id, r.title, r.time_minutes, r.price, r.description, r.link⟩

/-- Modelled from the spec: `TagSerializer` as a function; it reads only the
`id` and `name` attributes of the instance it is handed, so it applies to a
tag row and to an ingredient row alike. -/
def TagSerializer (id : Nat) (name : String) : AttrItem :=
  ⟨id, name⟩

/-- The viewset actions routed by the framework.  `patch` is the framework's
partial update action (HTTP PATCH); `update` is the full update (HTTP PUT). -/
inductive Action where
  | list
  | retrieve
  | create
  | update
  | patch
  | destroy
deriving Repr, DecidableEq

/-- Actions contributed by `mixins.ListModelMixin`. -/
def ListModelMixin.actions : List Action := [.list]

/-- Actions contributed by `mixins.RetrieveModelMixin`. -/
def RetrieveModelMixin.actions : List Action := [.retrieve]

/-- Actions contributed by `mixins.CreateModelMixin`. -/
def CreateModelMixin.actions : List Action := [.create]

/-- Actions contributed by `mixins.UpdateModelMixin` (PUT and PATCH). -/
def UpdateModelMixin.actions : List Action := [.update, .patch]

/-- Actions contributed by `mixins.DestroyModelMixin`. -/
def DestroyModelMixin.actions : List Action := [.destroy]

/-- `viewsets.ModelViewSet` combines all five mixins. -/
def ModelViewSet.actions : List Action :=
  CreateModelMixin.actions ++ RetrieveModelMixin.actions ++
    UpdateModelMixin.actions ++ DestroyModelMixin.actions ++
    ListModelMixin.actions

/-- `RecipeViewSet(viewsets.ModelViewSet)`: all six actions. -/
def RecipeViewSet.actions : List Action := ModelViewSet.actions

/-- `BaseRecipeAttrViewSet(GenericViewSet, ListModelMixin, UpdateModelMixin,
DestroyModelMixin)`: only the actions of the three mixed-in mixins. -/
def BaseRecipeAttrViewSet.actions : List Action :=
  ListModelMixin.actions ++ UpdateModelMixin.actions ++ DestroyModelMixin.actions

/-- `TagViewSet(BaseRecipeAttrViewSet)` adds no mixin. -/
def TagViewSet.actions : List Action := BaseRecipeAttrViewSet.actions

/-- `IngredientViewSet(BaseRecipeAttrViewSet)` adds no mixin. -/
def IngredientViewSet.actions : List Action := BaseRecipeAttrViewSet.actions

/-- The serializer classes imported by `views.py`. -/
inductive SerializerClass where
  | recipeSer
  | recipeDetailSer
  | tagSer
deriving Repr, DecidableEq

/-- `RecipeViewSet.serializer_class = RecipeDetailSerializer`. -/
def RecipeViewSet.serializer_class : SerializerClass := .recipeDetailSer

/-- `TagViewSet.serializer_class = TagSerializer`. -/
def TagViewSet.serializer_class : SerializerClass := .tagSer

/-- `IngredientViewSet.serializer_class = TagSerializer` (the source assigns
the tag serializer, not an ingredient-specific one). -/
def IngredientViewSet.serializer_class : SerializerClass := .tagSer

/-- `RecipeViewSet.get_serializer_class`: `RecipeSerializer` for the list
action, otherwise the class attribute. -/
def RecipeViewSet.get_serializer_class (a : Action) : SerializerClass :=
  if a = .list then .recipeSer else RecipeViewSet.serializer_class

/-- `order_by("-id")`: descending by primary key. -/
def idDesc (a b : Recipe) : Prop := b.id ≤ a.id

instance : DecidableRel idDesc := fun a b => Nat.decLe b.id a.id

instance : IsTotal Recipe idDesc := ⟨fun a b => Nat.le_total b.id a.id⟩

instance : IsTrans Recipe idDesc := ⟨fun _ _ _ hab hbc => Nat.le_trans hbc hab⟩

/-- `order_by("-name")` on tags: descending by name. -/
def tagNameDesc (a b : Tag) : Prop := b.name ≤ a.name

instance : DecidableRel tagNameDesc :=
  fun a b => inferInstanceAs (Decidable (b.name ≤ a.name))

instance : IsTotal Tag tagNameDesc := ⟨fun a b => le_total b.name a.name⟩

instance : IsTrans Tag tagNameDesc := ⟨fun _ _ _ hab hbc => le_trans hbc hab⟩

/-- `order_by("-name")` on ingredients: descending by name. -/
def ingNameDesc (a b : Ingredient) : Prop := b.name ≤ a.name

instance : DecidableRel ingNameDesc :=
  fun a b => inferInstanceAs (Decidable (b.name ≤ a.name))

instance : IsTotal Ingredient ingNameDesc := ⟨fun a b => le_total b.name a.name⟩

instance : IsTrans Ingredient ingNameDesc := ⟨fun _ _ _ hab hbc => le_trans hbc hab⟩

/-- `RecipeViewSet.get_queryset`:
`self.queryset.filter(user=self.request.user).order_by("-id")`. -/
def RecipeViewSet.get_queryset (uid : Nat) (db : DB) : List Recipe :=
  (db.recipes.filter fun r => r.user == uid).insertionSort idDesc

/-- The framework's `get_object`: look the URL's primary key up inside the
viewset's (filtered) queryset; `none` becomes a 404 response. -/
def RecipeViewSet.get_object (uid pk : Nat) (db : DB) : Option Recipe :=
  (RecipeViewSet.get_queryset uid db).find? fun r => r.id == pk

/-- `BaseRecipeAttrViewSet.get_queryset` on the tag table:
`self.queryset.filter(user=self.request.user).order_by("-name")`. -/
def TagViewSet.get_queryset (uid : Nat) (db : DB) : List Tag :=
  (db.tags.filter fun t => t.user == uid).insertionSort tagNameDesc

/-- The framework's `get_object` for tags. -/
def TagViewSet.get_object (uid pk : Nat) (db : DB) : Option Tag :=
  (TagViewSet.get_queryset uid db).find? fun t => t.id == pk

/-- `BaseRecipeAttrViewSet.get_queryset` on the ingredient table. -/
def IngredientViewSet.get_queryset (uid : Nat) (db : DB) : List Ingredient :=
  (db.ingredients.filter fun i => i.user == uid).insertionSort ingNameDesc

/-- The framework's `get_object` for ingredients. -/
def IngredientViewSet.get_object (uid pk : Nat) (db : DB) : Option Ingredient :=
  (IngredientViewSet.get_queryset uid db).find? fun i => i.id == pk

/-- A response to a read-only list request: status code and JSON array. -/
structure ListResponse (α : Type) where
  status : Nat
  body : List α
deriving Repr, DecidableEq

/-- A response to a read-only detail request. -/
structure DetailResponse (α : Type) where
  status : Nat
  body : Option α
deriving Repr, DecidableEq

/-- A response to a mutating request, together with the database it leaves
behind. -/
structure MutResponse (α : Type) where
  status : Nat
  body : Option α
  db : DB
deriving Repr, DecidableEq

/-- The writable recipe payload of a create or full-update request.  The
`user` key, when a client sends one, is carried here so that we can state
that the serializer ignores it: `user` is not among the serializer's
writable fields (the test suite's `test_update_user_returns_error`). -/
structure RecipePayload where
  title : String
  time_minutes : Nat
  price : String
  description : String
  link : String
  user : Option Nat
deriving Repr, DecidableEq

/-- A PATCH payload: each writable field optionally present, plus an
optional (ignored) `user` key. -/
structure RecipePatch where
  title : Option String
  time_minutes : Option Nat
  price : Option String
  description : Option String
  link : Option String
  user : Option Nat
deriving Repr, DecidableEq

/-- Primary-key allocation for an insert: one past the largest id in the
table. -/
def DB.nextRecipeId (db : DB) : Nat :=
  (db.recipes.map Recipe.id).foldr max 0 + 1

/-- `RecipeViewSet.perform_create`: `serializer.save(user=self.request.user)`
builds the new row from the validated payload with the requesting user as
owner; any `user` key in the payload is not a serializer field and is never
read. -/
def RecipeViewSet.perform_create (uid : Nat) (p : RecipePayload) (db : DB) : Recipe :=
  { id := db.nextRecipeId
    user := uid
    title := p.title
    time_minutes := p.time_minutes
    price := p.price
    description := p.description
    link := p.link }

/-- A full update (PUT) overwrites every writable field and keeps the
primary key and the owner. -/
def Recipe.applyPut (r : Recipe) (p : RecipePayload) : Recipe :=
  { r with
    title := p.title
    time_minutes := p.time_minutes
    price := p.price
    description := p.description
    link := p.link }

/-- A PATCH overwrites exactly the writable fields present in the payload
and keeps the primary key and the owner; the `user` key is not writable and
is never read. -/
def Recipe.applyPatch (r : Recipe) (q : RecipePatch) : Recipe :=
  { r with
    title := q.title.getD r.title
    time_minutes := q.time_minutes.getD r.time_minutes
    price := q.price.getD r.price
    description := q.description.getD r.description
    link := q.link.getD r.link }

/-- The ORM's `save` of an updated instance: replace the row with that
primary key. -/
def DB.saveRecipe (db : DB) (r : Recipe) : DB :=
  { db with recipes := db.recipes.map fun x => if x.id == r.id then r else x }

/-- The ORM's `delete` of an instance: drop the row with that primary key. -/
def DB.deleteRecipe (db : DB) (pk : Nat) : DB :=
  { db with recipes := db.recipes.filter fun x => !(x.id == pk) }

/-- The recipe list endpoint: token authentication, then the filtered and
ordered queryset serialized by the list serializer
(`get_serializer_class` returns `RecipeSerializer` for the list action). -/
def RecipeViewSet.list (auth : Option Nat) (db : DB) : ListResponse RecipeListItem :=
  match auth with
  | none => ⟨401, []⟩
  | some uid => ⟨200, (RecipeViewSet.get_queryset uid db).map RecipeSerializer⟩

/-- The recipe detail endpoint (GET): 404 when the key is not in the user's
queryset, otherwise the detail serialization. -/
def RecipeViewSet.retrieve (auth : Option Nat) (pk : Nat) (db : DB) :
    DetailResponse RecipeDetailItem :=
  match auth with
  | none => ⟨401, none⟩
  | some uid =>
    match RecipeViewSet.get_object uid pk db with
    | none => ⟨404, none⟩
    | some r => ⟨200, some (RecipeDetailSerializer r)⟩

/-- The recipe create endpoint (POST): 201 with the created row, appended to
the table, owner forced to the requesting user by `perform_create`. -/
def RecipeViewSet.create (auth : Option Nat) (p : RecipePayload) (db : DB) :
    MutResponse RecipeDetailItem :=
  match auth with
  | none => ⟨401, none, db⟩
  | some uid =>
    let r := RecipeViewSet.perform_create uid p db
    ⟨201, some (RecipeDetailSerializer r), { db with recipes := db.recipes ++ [r] }⟩

/-- The recipe full-update endpoint (PUT). -/
def RecipeViewSet.update (auth : Option Nat) (pk : Nat) (p : RecipePayload) (db : DB) :
    MutResponse RecipeDetailItem :=
  match auth with
  | none => ⟨401, none, db⟩
  | some uid =>
    match RecipeViewSet.get_object uid pk db with
    | none => ⟨404, none, db⟩
    | some r =>
      let r2 := r.applyPut p
      ⟨200, some (RecipeDetailSerializer r2), db.saveRecipe r2⟩

/-- The recipe partial-update endpoint (PATCH). -/
def RecipeViewSet.patch (auth : Option Nat) (pk : Nat) (q : RecipePatch) (db : DB) :
    MutResponse RecipeDetailItem :=
  match auth with
  | none => ⟨401, none, db⟩
  | some uid =>
    match RecipeViewSet.get_object uid pk db with
    | none => ⟨404, none, db⟩
    | some r =>
      let r2 := r.applyPatch q
      ⟨200, some (RecipeDetailSerializer r2), db.saveRecipe r2⟩

/-- The recipe delete endpoint (DELETE): 404 outside the user's queryset,
otherwise 204 with the row removed. -/
def RecipeViewSet.destroy (auth : Option Nat) (pk : Nat) (db : DB) :
    MutResponse RecipeDetailItem :=
  match auth with
  | none => ⟨401, none, db⟩
  | some uid =>
    match RecipeViewSet.get_object uid pk db with
    | none => ⟨404, none, db⟩
    | some r => ⟨204, none, db.deleteRecipe r.id⟩

/-- `TagSerializer` applied to a tag instance. -/
def TagViewSet.serialize (t : Tag) : AttrItem := TagSerializer t.id t.name

/-- The serializer the ingredient viewset applies to an ingredient instance:
`IngredientViewSet.serializer_class` is `TagSerializer`, which reads the
instance's `id` and `name`. -/
def IngredientViewSet.serialize (i : Ingredient) : AttrItem := TagSerializer i.id i.name

/-- The writable payload of the tag and ingredient endpoints: the name, plus
an optional (ignored) `user` key. -/
structure AttrPayload where
  name : String
  user : Option Nat
deriving Repr, DecidableEq

/-- A PATCH payload for tags and ingredients. -/
structure AttrPatch where
  name : Option String
  user : Option Nat
deriving Repr, DecidableEq

/-- The tag list endpoint. -/
def TagViewSet.list (auth : Option Nat) (db : DB) : ListResponse AttrItem :=
  match auth with
  | none => ⟨401, []⟩
  | some uid => ⟨200, (TagViewSet.get_queryset uid db).map TagViewSet.serialize⟩

/-- The tag full-update endpoint (PUT). -/
def TagViewSet.update (auth : Option Nat) (pk : Nat) (p : AttrPayload) (db : DB) :
    MutResponse AttrItem :=
  match auth with
  | none => ⟨401, none, db⟩
  | some uid =>
    match TagViewSet.get_object uid pk db with
    | none => ⟨404, none, db⟩
    | some t =>
      let t2 : Tag := { t with name := p.name }
      ⟨200, some (TagViewSet.serialize t2),
        { db with tags := db.tags.map fun x => if x.id == t2.id then t2 else x }⟩

/-- The tag partial-update endpoint (PATCH). -/
def TagViewSet.patch (auth : Option Nat) (pk : Nat) (q : AttrPatch) (db : DB) :
    MutResponse AttrItem :=
  match auth with
  | none => ⟨401, none, db⟩
  | some uid =>
    match TagViewSet.get_object uid pk db with
    | none => ⟨404, none, db⟩
    | some t =>
      let t2 : Tag := { t with name := q.name.getD t.name }
      ⟨200, some (TagViewSet.serialize t2),
        { db with tags := db.tags.map fun x => if x.id == t2.id then t2 else x }⟩

/-- The tag delete endpoint (DELETE). -/
def TagViewSet.destroy (auth : Option Nat) (pk : Nat) (db : DB) :
    MutResponse AttrItem :=
  match auth with
  | none => ⟨401, none, db⟩
  | some uid =>
    match TagViewSet.get_object uid pk db with
    | none => ⟨404, none, db⟩
    | some t => ⟨204, none, { db with tags := db.tags.filter fun x => !(x.id == t.id) }⟩

/-- The ingredient list endpoint. -/
def IngredientViewSet.list (auth : Option Nat) (db : DB) : ListResponse AttrItem :=
  match auth with
  | none => ⟨401, []⟩
  | some uid =>
    ⟨200, (IngredientViewSet.get_queryset uid db).map IngredientViewSet.serialize⟩

/-- The ingredient full-update endpoint (PUT). -/
def IngredientViewSet.update (auth : Option Nat) (pk : Nat) (p : AttrPayload) (db : DB) :
    MutResponse AttrItem :=
  match auth with
  | none => ⟨401, none, db⟩
  | some uid =>
    match IngredientViewSet.get_object uid pk db with
    | none => ⟨404, none, db⟩
    | some i =>
      let i2 : Ingredient := { i with name := p.name }
      ⟨200, some (IngredientViewSet.serialize i2),
        { db with ingredients := db.ingredients.map fun x => if x.id == i2.id then i2 else x }⟩

/-- The ingredient partial-update endpoint (PATCH). -/
def IngredientViewSet.patch (auth : Option Nat) (pk : Nat) (q : AttrPatch) (db : DB) :
    MutResponse AttrItem :=
  match auth with
  | none => ⟨401, none, db⟩
  | some uid =>
    match IngredientViewSet.get_object uid pk db with
    | none => ⟨404, none, db⟩
    | some i =>
      let i2 : Ingredient := { i with name := q.name.getD i.name }
      ⟨200, some (IngredientViewSet.serialize i2),
        { db with ingredients := db.ingredients.map fun x => if x.id == i2.id then i2 else x }⟩

/-- The ingredient delete endpoint (DELETE). -/
def IngredientViewSet.destroy (auth : Option Nat) (pk : Nat) (db : DB) :
    MutResponse AttrItem :=
  match auth with
  | none => ⟨401, none, db⟩
  | some uid =>
    match IngredientViewSet.get_object uid pk db with
    | none => ⟨404, none, db⟩
    | some i =>
      ⟨204, none, { db with ingredients := db.ingredients.filter fun x => !(x.id == i.id) }⟩

/-! ## Helper lemmas shared by the claims -/

/-- Membership in the recipe queryset is membership in the table with the
right owner. -/
theorem mem_recipe_queryset {uid : Nat} {db : DB} {r : Recipe} :
    r ∈ RecipeViewSet.get_queryset uid db ↔ r ∈ db.recipes ∧ r.user = uid := by
  simp [RecipeViewSet.get_queryset, List.mem_insertionSort, List.mem_filter]

/-- When the addressed recipe belongs to another user (and primary keys are
unique), the framework's lookup inside the filtered queryset misses. -/
theorem recipe_get_object_none {uid pk : Nat} {db : DB} {r : Recipe}
    (hnd : (db.recipes.map Recipe.id).Nodup)
    (hr : r ∈ db.recipes) (hid : r.id = pk) (hu : r.user ≠ uid) :
    RecipeViewSet.get_object uid pk db = none := by
  rw [RecipeViewSet.get_object, List.find?_eq_none]
  intro x hx
  rw [mem_recipe_queryset] at hx
  simp only [beq_iff_eq]
  intro hxid
  have hxr : x = r := List.inj_on_of_nodup_map hnd hx.1 hr (by rw [hxid, hid])
  exact hu (hxr ▸ hx.2)

/-- When the addressed recipe belongs to the requesting user (and primary
keys are unique), the framework's lookup finds exactly that row. -/
theorem recipe_get_object_some {uid pk : Nat} {db : DB} {r : Recipe}
    (hnd : (db.recipes.map Recipe.id).Nodup)
    (hr : r ∈ db.recipes) (hid : r.id = pk) (hu : r.user = uid) :
    RecipeViewSet.get_object uid pk db = some r := by
  have hrq : r ∈ RecipeViewSet.get_queryset uid db := mem_recipe_queryset.mpr ⟨hr, hu⟩
  cases h : RecipeViewSet.get_object uid pk db with
  | none =>
    rw [RecipeViewSet.get_object, List.find?_eq_none] at h
    exact absurd (by simpa using hid) (h r hrq)
  | some x =>
    rw [RecipeViewSet.get_object] at h
    have hx1 : x.id = pk := by simpa using List.find?_some h
    have hx2 : x ∈ RecipeViewSet.get_queryset uid db := List.mem_of_find?_eq_some h
    rw [mem_recipe_queryset] at hx2
    have hxr : x = r := List.inj_on_of_nodup_map hnd hx2.1 hr (by rw [hx1, hid])
    rw [hxr]

/-! ## The claims -/

/-- Claim C1: for every authenticated user, the recipe list operation
returns exactly the recipes whose owning user is the requesting user: every
recipe owned by that user appears (serialized) in the response body, and
every element of the response body is the serialization of a recipe owned by
that user, so no other user's recipe appears. -/
theorem c1_list_exactly_own_recipes (uid : Nat) (db : DB) :
    (RecipeViewSet.list (some uid) db).status = 200 ∧
    (∀ r ∈ db.recipes, r.user = uid →
      RecipeSerializer r ∈ (RecipeViewSet.list (some uid) db).body) ∧
    (∀ b ∈ (RecipeViewSet.list (some uid) db).body,
      ∃ r, r ∈ db.recipes ∧ r.user = uid ∧ b = RecipeSerializer r) := by
  refine ⟨rfl, ?_, ?_⟩
  · intro r hr hu
    exact List.mem_map_of_mem _ (mem_recipe_queryset.mpr ⟨hr, hu⟩)
  · intro b hb
    obtain ⟨r, hrq, rfl⟩ := List.mem_map.mp hb
    rw [mem_recipe_queryset] at hrq
    exact ⟨r, hrq.1, hrq.2, rfl⟩

/-- Claim C9: every list response has a fixed order: the recipe list is
sorted by id in descending order, and the tag and ingredient lists are
sorted by name in descending order. -/
theorem c9_list_responses_sorted_descending (uid : Nat) (db : DB) :
    List.Pairwise (fun a b => b.id ≤ a.id) (RecipeViewSet.list (some uid) db).body ∧
    List.Pairwise (fun a b => b.name ≤ a.name) (TagViewSet.list (some uid) db).body ∧
    List.Pairwise (fun a b => b.name ≤ a.name) (IngredientViewSet.list (some uid) db).body := by
  refine ⟨?_, ?_, ?_⟩
  · exact List.Pairwise.map _ (fun a b h => h) (List.sorted_insertionSort idDesc _)
  · exact List.Pairwise.map _ (fun a b h => h) (List.sorted_insertionSort tagNameDesc _)
  · exact List.Pairwise.map _ (fun a b h => h) (List.sorted_insertionSort ingNameDesc _)

/-- Claim C2, counterexample: the claim that all three resource types
support all six operations is false — the tag and ingredient viewsets are
built from only the list, update and destroy mixins, so they route neither
the retrieve nor the create action. -/
theorem c2_counterexample :
    Action.retrieve ∉ TagViewSet.actions ∧ Action.create ∉ TagViewSet.actions ∧
    Action.retrieve ∉ IngredientViewSet.actions ∧
    Action.create ∉ IngredientViewSet.actions := by decide

/-- Claim C2, amended: the recipe endpoints support all six operations
(list, retrieve, create, update, partial update, delete), while the tag and
ingredient endpoints support only list, update, partial update and delete —
neither retrieve of a single object nor create. -/
theorem c2_amended_supported_actions :
    Action.list ∈ RecipeViewSet.actions ∧ Action.retrieve ∈ RecipeViewSet.actions ∧
    Action.create ∈ RecipeViewSet.actions ∧ Action.update ∈ RecipeViewSet.actions ∧
    Action.patch ∈ RecipeViewSet.actions ∧ Action.destroy ∈ RecipeViewSet.actions ∧
    TagViewSet.actions = [.list, .update, .patch, .destroy] ∧
    IngredientViewSet.actions = [.list, .update, .patch, .destroy] := by decide

/-- Claim C4: every request to a recipe, tag or ingredient endpoint that
carries no valid authentication token fails with status 401, and the stored
state is unchanged (no resource operation is performed). -/
theorem c4_unauthenticated_401_no_effect (db : DB) (pk : Nat) (p : RecipePayload)
    (q : RecipePatch) (ap : AttrPayload) (aq : AttrPatch) :
    (RecipeViewSet.list none db).status = 401 ∧
    (RecipeViewSet.retrieve none pk db).status = 401 ∧
    (RecipeViewSet.create none p db).status = 401 ∧
    (RecipeViewSet.create none p db).db = db ∧
    (RecipeViewSet.update none pk p db).status = 401 ∧
    (RecipeViewSet.update none pk p db).db = db ∧
    (RecipeViewSet.patch none pk q db).status = 401 ∧
    (RecipeViewSet.patch none pk q db).db = db ∧
    (RecipeViewSet.destroy none pk db).status = 401 ∧
    (RecipeViewSet.destroy none pk db).db = db ∧
    (TagViewSet.list none db).status = 401 ∧
    (TagViewSet.update none pk ap db).status = 401 ∧
    (TagViewSet.update none pk ap db).db = db ∧
    (TagViewSet.patch none pk aq db).status = 401 ∧
    (TagViewSet.patch none pk aq db).db = db ∧
    (TagViewSet.destroy none pk db).status = 401 ∧
    (TagViewSet.destroy none pk db).db = db ∧
    (IngredientViewSet.list none db).status = 401 ∧
    (IngredientViewSet.update none pk ap db).status = 401 ∧
    (IngredientViewSet.update none pk ap db).db = db ∧
    (IngredientViewSet.patch none pk aq db).status = 401 ∧
    (IngredientViewSet.patch none pk aq db).db = db ∧
    (IngredientViewSet.destroy none pk db).status = 401 ∧
    (IngredientViewSet.destroy none pk db).db = db := by
  repeat' apply And.intro
  all_goals rfl

/-- Claim C5: a successful recipe create by an authenticated user returns
status 201, appends a row whose writable fields equal the supplied payload
fields, and makes the requesting user the owner — whatever `user` value the
payload carries, the result is the same. -/
theorem c5_create_owner_is_requester (uid : Nat) (p : RecipePayload) (db : DB) :
    (RecipeViewSet.create (some uid) p db).status = 201 ∧
    (RecipeViewSet.create (some uid) p db).db.recipes
      = db.recipes ++ [RecipeViewSet.perform_create uid p db] ∧
    (RecipeViewSet.perform_create uid p db).user = uid ∧
    (RecipeViewSet.perform_create uid p db).title = p.title ∧
    (RecipeViewSet.perform_create uid p db).time_minutes = p.time_minutes ∧
    (RecipeViewSet.perform_create uid p db).price = p.price ∧
    (RecipeViewSet.perform_create uid p db).description = p.description ∧
    (RecipeViewSet.perform_create uid p db).link = p.link ∧
    (∀ u, RecipeViewSet.create (some uid) { p with user := u } db
        = RecipeViewSet.create (some uid) p db) := by
  refine ⟨rfl, rfl, rfl, rfl, rfl, rfl, rfl, rfl, fun u => rfl⟩

/-- Claim C7: the recipe viewset selects its serializer by action — the
list action uses `RecipeSerializer`, and every other action uses the
`RecipeDetailSerializer` class attribute. -/
theorem c7_serializer_selected_by_action :
    RecipeViewSet.get_serializer_class .list = .recipeSer ∧
    RecipeViewSet.get_serializer_class .retrieve = .recipeDetailSer ∧
    RecipeViewSet.get_serializer_class .create = .recipeDetailSer ∧
    RecipeViewSet.get_serializer_class .update = .recipeDetailSer ∧
    RecipeViewSet.get_serializer_class .patch = .recipeDetailSer ∧
    RecipeViewSet.get_serializer_class .destroy = .recipeDetailSer ∧
    RecipeViewSet.get_serializer_class .retrieve = RecipeViewSet.serializer_class := by
  decide

/-- Claim C8: the ingredient viewset's serializer class is `TagSerializer`,
the very class the tag viewset uses, so a tag row and an ingredient row with
the same id and name serialize to identical bodies. -/
theorem c8_ingredient_uses_tag_serializer :
    IngredientViewSet.serializer_class = TagViewSet.serializer_class ∧
    ∀ (t : Tag) (i : Ingredient), t.id = i.id → t.name = i.name →
      IngredientViewSet.serialize i = TagViewSet.serialize t := by
  refine ⟨rfl, fun t i h1 h2 => ?_⟩
  simp [IngredientViewSet.serialize, TagViewSet.serialize, TagSerializer, h1, h2]

/-- Claim C8 witness: a concrete tag and ingredient sharing id 4 and name
"salt" but owned by different users serialize identically. -/
theorem c8_witness :
    IngredientViewSet.serialize ⟨4, 9, "salt"⟩ = TagViewSet.serialize ⟨4, 2, "salt"⟩ :=
  c8_ingredient_uses_tag_serializer.2 ⟨4, 2, "salt"⟩ ⟨4, 9, "salt"⟩ rfl rfl

/-- Claim C3: when an authenticated user addresses by id a recipe that
exists but is owned by a different user, the retrieve, update, partial
update and delete operations all fail with 404 — the queryset filter hides
other users' rows, so the lookup misses. -/
theorem c3_cross_user_detail_404 (uid pk : Nat) (p : RecipePayload) (q : RecipePatch)
    (db : DB) (r : Recipe)
    (hnd : (db.recipes.map Recipe.id).Nodup)
    (hr : r ∈ db.recipes) (hid : r.id = pk) (hu : r.user ≠ uid) :
    (RecipeViewSet.retrieve (some uid) pk db).status = 404 ∧
    (RecipeViewSet.update (some uid) pk p db).status = 404 ∧
    (RecipeViewSet.patch (some uid) pk q db).status = 404 ∧
    (RecipeViewSet.destroy (some uid) pk db).status = 404 := by
  have hobj := recipe_get_object_none hnd hr hid hu
  refine ⟨?_, ?_, ?_, ?_⟩ <;>
    simp [RecipeViewSet.retrieve, RecipeViewSet.update, RecipeViewSet.patch,
      RecipeViewSet.destroy, hobj]

/-- A sample recipe row owned by user 7, with the field values the test
suite's `create_recipe` helper uses. -/
def recipeOfUser7 : Recipe :=
  ⟨1, 7, "Sample Recipe", 10, "5.25", "Sample description",
    "https://sample.com/recipe.pdf"⟩

/-- A sample database holding only `recipeOfUser7`. -/
def oneRecipeDB : DB := ⟨[recipeOfUser7], [], []⟩

/-- A sample PATCH payload carrying a new title and an (ignored) attempt to
reassign the owner to user 9. -/
def titlePatch : RecipePatch := ⟨some "New title", none, none, none, none, some 9⟩

/-- A sample full-update payload, with the field values of the test suite's
`test_full_update_recipe`. -/
def putPayload : RecipePayload :=
  ⟨"New title", 25, "5.99", "New description", "https://sample.com/new.pdf", none⟩

/-- Claim C3 witness: user 3 addressing recipe 1 (owned by user 7) gets 404
from all four detail operations. -/
theorem c3_witness :
    (RecipeViewSet.retrieve (some 3) 1 oneRecipeDB).status = 404 ∧
    (RecipeViewSet.update (some 3) 1 putPayload oneRecipeDB).status = 404 ∧
    (RecipeViewSet.patch (some 3) 1 titlePatch oneRecipeDB).status = 404 ∧
    (RecipeViewSet.destroy (some 3) 1 oneRecipeDB).status = 404 :=
  c3_cross_user_detail_404 3 1 putPayload titlePatch oneRecipeDB recipeOfUser7
    (by decide) (by decide) (by decide) (by decide)

/-- Claim C6: a PATCH of a recipe by its owner succeeds with 200 and changes
only the writable fields present in the payload — each absent field keeps
its previous value, each present field takes the payload's value, the
primary key and the owner are unchanged (whatever `user` value the payload
carries), and every other row of the table is untouched. -/
theorem c6_patch_frame (uid pk : Nat) (q : RecipePatch) (db : DB) (r : Recipe)
    (hnd : (db.recipes.map Recipe.id).Nodup)
    (hr : r ∈ db.recipes) (hid : r.id = pk) (hu : r.user = uid) :
    (RecipeViewSet.patch (some uid) pk q db).status = 200 ∧
    (RecipeViewSet.patch (some uid) pk q db).db.recipes
      = db.recipes.map (fun x => if x.id == pk then r.applyPatch q else x) ∧
    (r.applyPatch q).id = r.id ∧
    (r.applyPatch q).user = r.user ∧
    (q.title = none → (r.applyPatch q).title = r.title) ∧
    (∀ v, q.title = some v → (r.applyPatch q).title = v) ∧
    (q.time_minutes = none → (r.applyPatch q).time_minutes = r.time_minutes) ∧
    (∀ v, q.time_minutes = some v → (r.applyPatch q).time_minutes = v) ∧
    (q.price = none → (r.applyPatch q).price = r.price) ∧
    (∀ v, q.price = some v → (r.applyPatch q).price = v) ∧
    (q.description = none → (r.applyPatch q).description = r.description) ∧
    (∀ v, q.description = some v → (r.applyPatch q).description = v) ∧
    (q.link = none → (r.applyPatch q).link = r.link) ∧
    (∀ v, q.link = some v → (r.applyPatch q).link = v) ∧
    (∀ x ∈ db.recipes, x.id ≠ pk →
      x ∈ (RecipeViewSet.patch (some uid) pk q db).db.recipes) := by
  have hobj := recipe_get_object_some hnd hr hid hu
  have hidq : (r.applyPatch q).id = pk := hid
  have hres : RecipeViewSet.patch (some uid) pk q db
      = ⟨200, some (RecipeDetailSerializer (r.applyPatch q)),
          db.saveRecipe (r.applyPatch q)⟩ := by
    simp [RecipeViewSet.patch, hobj]
  rw [hres]
  refine ⟨rfl, ?_, rfl, rfl, ?_, ?_, ?_, ?_, ?_, ?_, ?_, ?_, ?_, ?_, ?_⟩
  · simp [DB.saveRecipe, hidq]
  · intro h; simp [Recipe.applyPatch, h]
  · intro v h; simp [Recipe.applyPatch, h]
  · intro h; simp [Recipe.applyPatch, h]
  · intro v h; simp [Recipe.applyPatch, h]
  · intro h; simp [Recipe.applyPatch, h]
  · intro v h; simp [Recipe.applyPatch, h]
  · intro h; simp [Recipe.applyPatch, h]
  · intro v h; simp [Recipe.applyPatch, h]
  · intro h; simp [Recipe.applyPatch, h]
  · intro v h; simp [Recipe.applyPatch, h]
  · intro x hx hne
    have hmem := List.mem_map_of_mem
      (fun y => if y.id == (r.applyPatch q).id then r.applyPatch q else y) hx
    simpa [DB.saveRecipe, hidq, hne] using hmem

/-- Claim C6 witness: user 7 patches their recipe 1 with a new title and an
attempted owner reassignment; status is 200, the title changes, the link and
the owner do not. -/
theorem c6_witness :
    (RecipeViewSet.patch (some 7) 1 titlePatch oneRecipeDB).status = 200 ∧
    (recipeOfUser7.applyPatch titlePatch).user = recipeOfUser7.user ∧
    (recipeOfUser7.applyPatch titlePatch).link = recipeOfUser7.link ∧
    (recipeOfUser7.applyPatch titlePatch).title = "New title" := by
  obtain ⟨h1, _, _, h4, h5, h6, _, _, _, _, _, _, h13, _, _⟩ :=
    c6_patch_frame 7 1 titlePatch oneRecipeDB recipeOfUser7
      (by decide) (by decide) rfl rfl
  exact ⟨h1, h4, h13 rfl, h6 "New title" rfl⟩

/-- Claim C10: a delete addressed at another user's recipe returns 404 and
leaves the stored state exactly as it was (the targeted row survives with
all its fields), while a delete by the owner returns 204 and removes exactly
the addressed row, leaving every other row in place. -/
theorem c10_delete_atomic (uid pk : Nat) (db : DB) (r : Recipe)
    (hnd : (db.recipes.map Recipe.id).Nodup)
    (hr : r ∈ db.recipes) (hid : r.id = pk) :
    (r.user ≠ uid →
      (RecipeViewSet.destroy (some uid) pk db).status = 404 ∧
      (RecipeViewSet.destroy (some uid) pk db).db = db ∧
      r ∈ (RecipeViewSet.destroy (some uid) pk db).db.recipes) ∧
    (r.user = uid →
      (RecipeViewSet.destroy (some uid) pk db).status = 204 ∧
      (RecipeViewSet.destroy (some uid) pk db).db.recipes
        = db.recipes.filter (fun x => !(x.id == pk)) ∧
      r ∉ (RecipeViewSet.destroy (some uid) pk db).db.recipes ∧
      (∀ x ∈ db.recipes, x.id ≠ pk →
        x ∈ (RecipeViewSet.destroy (some uid) pk db).db.recipes)) := by
  constructor
  · intro hu
    have hobj := recipe_get_object_none hnd hr hid hu
    have hres : RecipeViewSet.destroy (some uid) pk db = ⟨404, none, db⟩ := by
      simp [RecipeViewSet.destroy, hobj]
    rw [hres]
    exact ⟨rfl, rfl, hr⟩
  · intro hu
    have hobj := recipe_get_object_some hnd hr hid hu
    have hres : RecipeViewSet.destroy (some uid) pk db
        = ⟨204, none, db.deleteRecipe r.id⟩ := by
      simp [RecipeViewSet.destroy, hobj]
    rw [hres]
    refine ⟨rfl, ?_, ?_, ?_⟩
    · simp [DB.deleteRecipe, hid]
    · simp [DB.deleteRecipe, List.mem_filter, hid]
    · intro x hx hne
      simp [DB.deleteRecipe, List.mem_filter, hid, hx, hne]

/-- Claim C10 witness: user 3's delete of recipe 1 (owned by user 7) returns
404 and leaves the row in place; user 7's delete of the same recipe returns
204 and empties the table. -/
theorem c10_witness :
    (RecipeViewSet.destroy (some 3) 1 oneRecipeDB).status = 404 ∧
    (RecipeViewSet.destroy (some 3) 1 oneRecipeDB).db = oneRecipeDB ∧
    (RecipeViewSet.destroy (some 7) 1 oneRecipeDB).status = 204 ∧
    recipeOfUser7 ∉ (RecipeViewSet.destroy (some 7) 1 oneRecipeDB).db.recipes := by
  obtain ⟨hc, _⟩ :=
    c10_delete_atomic 3 1 oneRecipeDB recipeOfUser7 (by decide) (by decide) rfl
  obtain ⟨h1, h2, _⟩ := hc (by decide)
  obtain ⟨_, ho⟩ :=
    c10_delete_atomic 7 1 oneRecipeDB recipeOfUser7 (by decide) (by decide) rfl
  obtain ⟨h3, _, h4, _⟩ := ho rfl
  exact ⟨h1, h2, h3, h4⟩

end RecipeApp
